import Mathlib

/-!
Verification development for the chat.langchain.com Playwright scraper.

The embedding models `scrape_chat_langchain` from `playwright_scraper.py`
together with the `ChatLangchainResponse` pydantic model from
`response_format.py`.  The browser automation collaborator (Playwright) is
modelled as a record of sub-step outcomes (`BrowserBehaviour`): each awaited
call on the browser either succeeds with a value or raises a Python
exception (`PyExc`).  The function body is a direct transcription of the
Python control flow: the `try`/`except Exception`/`finally` structure, the
clipboard primary extraction channel, the in-page JavaScript DOM fallback,
the best-effort raw-HTML capture, and the message count.

String operations performed by the Python and JavaScript source
(`str.strip()`, `String.prototype.trim()`, `replace(/Copy/g, '')`) are
modelled by executable functions on the underlying character lists so that
concrete runs evaluate inside the kernel.
-/

set_option maxRecDepth 8000

/-- Model of a Python exception value as observed by the scraper:
`typeName` is `type(e).__name__`, `message` is `str(e)`, and `isPwTimeout`
records whether the exception is an instance of Playwright's
`TimeoutError` class (the only class caught by the inner
`except PlaywrightTimeoutError` handler at line 72 of
`playwright_scraper.py`). -/
structure PyExc where
  typeName : String
  message : String
  isPwTimeout : Bool
deriving Repr, DecidableEq

/-- A value stored in the `metadata` dict of a response
(`Dict[str, Any]`; the scraper only ever stores strings, booleans and
integers). -/
inductive MetaVal where
  | str (s : String)
  | bool (b : Bool)
  | int (n : Int)
deriving Repr, DecidableEq

/-- `ChatLangchainResponse` from `response_format.py` (lines 32-37 plus the
inherited `BaseResponse` fields).  The `timestamp` field (a wall-clock
default) carries no information relevant to any claim and is omitted;
`source` keeps its pydantic default. -/
structure ChatLangchainResponse where
  text : String
  metadata : List (String × MetaVal)
  raw_html : Option String := none
  message_count : Int := 1
  source : String := "chat.langchain.com"
deriving Repr, DecidableEq

/-- Leading-whitespace removal on a character list (whitespace in the sense
of `Char.isWhitespace`, covering the space/tab/newline/carriage-return
characters that both Python `str.strip()` and JavaScript
`String.prototype.trim()` remove; the further exotic Unicode whitespace
code points are elided). -/
def dropWsLeft : List Char → List Char
  | [] => []
  | c :: cs => if c.isWhitespace then dropWsLeft cs else c :: cs

/-- Trim whitespace from both ends of a character list. -/
def trimChars (l : List Char) : List Char :=
  dropWsLeft ((dropWsLeft l.reverse).reverse)

/-- Executable model of Python `str.strip()` and JavaScript
`String.prototype.trim()`. -/
def strTrim (s : String) : String := String.mk (trimChars s.data)

/-- One left-to-right, non-overlapping pass removing every occurrence of
the four-character pattern `Copy`: the semantics of the JavaScript call
`text.replace(/Copy/g, '')` at line 105 of `playwright_scraper.py`. -/
def stripCopyChars : List Char → List Char
  | [] => []
  | 'C' :: 'o' :: 'p' :: 'y' :: cs => stripCopyChars cs
  | c :: cs => c :: stripCopyChars cs

/-- Executable model of `text.replace(/Copy/g, '')`. -/
def stripCopy (s : String) : String := String.mk (stripCopyChars s.data)

/-- A DOM element as seen by the fallback script: its `innerText` and
`textContent` properties (line 104 of `playwright_scraper.py` reads
`container.innerText || container.textContent`). -/
structure DomNode where
  innerText : String
  textContent : String
deriving Repr, DecidableEq

/-- The DOM state inspected by the in-page fallback script
(lines 91-110 of `playwright_scraper.py`): whether a button whose trimmed
text content is exactly `Copy` exists, the nearest ancestor of that button
matching the `[class*="message"], [class*="response"], [class*="assistant"]`
selector (if any), and the button's `parentElement?.parentElement`
(if any). -/
structure FallbackDom where
  copyButtonFound : Bool
  closestContainer : Option DomNode
  grandparent : Option DomNode
deriving Repr, DecidableEq

/-- `container.innerText || container.textContent`: JavaScript `||` takes
the second operand when the first is the empty string. -/
def nodeText (n : DomNode) : String :=
  if n.innerText = "" then n.textContent else n.innerText

/-- The value returned by the fallback `page.evaluate` script
(lines 91-110 of `playwright_scraper.py`): if a `Copy` button exists, pick
the closest matching ancestor container, falling back to the button's
grandparent; if a container was found return its visible text with every
`Copy` occurrence removed and whitespace trimmed, otherwise return `null`
(modelled as `none`). -/
def fallbackEval (dom : FallbackDom) : Option String :=
  if dom.copyButtonFound then
    match dom.closestContainer with
    | some c => some (strTrim (stripCopy (nodeText c)))
    | none =>
      match dom.grandparent with
      | some c => some (strTrim (stripCopy (nodeText c)))
      | none => none
  else none

/-- One behaviour of the browser collaborator: the outcome of every awaited
Playwright call made by `scrape_chat_langchain`, in source order.
`Except.error e` means the call raised exception `e`.  The
`async_playwright()` context entry is folded into `launch` (an exception in
either leaves the `browser` local unset, with identical observable
behaviour). -/
structure BrowserBehaviour where
  /-- `p.chromium.launch(headless=headless)`, line 41. -/
  launch : Except PyExc Unit
  /-- `browser.new_context(permissions=[...])`, line 43. -/
  newContext : Except PyExc Unit
  /-- `context.new_page()`, line 44. -/
  newPage : Except PyExc Unit
  /-- `page.goto(CHAT_LANGCHAIN_URL, wait_until="networkidle")`, line 47. -/
  goto : Except PyExc Unit
  /-- `textbox.click()`, line 51. -/
  textboxClick : Except PyExc Unit
  /-- `textbox.fill(prompt)`, line 54. -/
  textboxFill : Except PyExc Unit
  /-- `textbox.press("Enter")`, line 57. -/
  textboxPress : Except PyExc Unit
  /-- `copy_button.wait_for(state="visible", timeout=timeout)`, line 67. -/
  copyButtonWait : Except PyExc Unit
  /-- `page.wait_for_load_state("networkidle", timeout=timeout)`, line 71. -/
  networkIdleWait : Except PyExc Unit
  /-- `page.evaluate(... clipboard.writeText('') ...)`, line 77. -/
  clipboardClear : Except PyExc Unit
  /-- `copy_button.click()`, line 80. -/
  copyButtonClick : Except PyExc Unit
  /-- `page.evaluate(... clipboard.readText() ...)`, line 86. -/
  clipboardRead : Except PyExc String
  /-- The DOM state seen by the fallback `page.evaluate` at line 91 (the
  call itself may also raise). -/
  fallbackDom : Except PyExc FallbackDom
  /-- `page.query_selector_all('[class*="message"], ...')`, line 116:
  number of elements found. -/
  rawQuery : Except PyExc Nat
  /-- `response_elements[-1].inner_html()`, line 118. -/
  lastInnerHtml : Except PyExc String
  /-- `page.query_selector_all('[class*="message"]')`, line 123: number of
  elements found. -/
  msgQuery : Except PyExc Nat
  /-- `page.url`, line 132 (attribute access, never raises). -/
  pageUrl : String
  /-- `browser.close()` in the `finally` block, line 145. -/
  browserClose : Except PyExc Unit
deriving Repr

/-- Observable events of one invocation, used to state which internal
channels ran. -/
structure RunTrace where
  /-- The fallback `page.evaluate` DOM scrape (line 91) was invoked. -/
  fallbackInvoked : Bool
  /-- The `except PlaywrightTimeoutError` branch at line 72 ran, i.e. the
  fixed 2-second settle delay replaced network quiescence. -/
  settleDelayFallback : Bool
  /-- Control reached content extraction (the clipboard clear at
  line 77). -/
  reachedExtraction : Bool
deriving Repr, DecidableEq

/-- The outcome of one invocation: either a returned
`ChatLangchainResponse` or an exception propagated to the caller, together
with the trace of observable events. -/
structure RunOutcome where
  result : Except PyExc ChatLangchainResponse
  trace : RunTrace
deriving Repr

/-- The failure-shaped response built by the outer `except Exception`
handler, lines 139-142 of `playwright_scraper.py`. -/
def errorResponse (e : PyExc) : ChatLangchainResponse :=
  { text := "Error scraping chat.langchain.com: " ++ e.message
    metadata := [("error", MetaVal.str e.message),
                 ("error_type", MetaVal.str e.typeName)] }

/-- The `AttributeError` raised by `response_text.strip()` at line 128 when
`response_text` is `None` (the fallback script returned `null`).  The
apostrophes of the actual Python message are elided. -/
def attributeErrorNone : PyExc :=
  { typeName := "AttributeError"
    message := "NoneType object has no attribute strip"
    isPwTimeout := false }

/-- Lines 113-120: best-effort raw HTML capture.  `raw_html` starts as
`None`; the query and the `inner_html` call run inside
`try ... except Exception: pass`, so any exception leaves `raw_html` as
`None`, as does an empty query result. -/
def raw_html_of (b : BrowserBehaviour) : Option String :=
  match b.rawQuery with
  | Except.error _ => none
  | Except.ok n =>
    if n = 0 then none
    else
      match b.lastInnerHtml with
      | Except.error _ => none
      | Except.ok h => some h

/-- Lines 123-125: `message_count = len(...)`, replaced by `1` when zero. -/
def message_count_of (n : Nat) : Int :=
  if n = 0 then 1 else (n : Int)

/-- Lines 77-136, from the clipboard clear to the success-path `return`:
`settle` records whether the 2-second settle delay replaced network
quiescence.  `Except.error` in the first component means the exception
reaches the outer `except Exception` handler. -/
def assemble (b : BrowserBehaviour) (headless : Bool) (timeout : Int)
    (settle fb : Bool) (rt : Option String) :
    Except PyExc ChatLangchainResponse × RunTrace :=
  let tr : RunTrace := ⟨fb, settle, true⟩
  match b.msgQuery with
  | Except.error e => (Except.error e, tr)
  | Except.ok n =>
    match rt with
    | none => (Except.error attributeErrorNone, tr)
    | some t =>
      (Except.ok
        { text := strTrim t
          metadata := [("url", MetaVal.str b.pageUrl),
                       ("headless", MetaVal.bool headless),
                       ("timeout", MetaVal.int timeout)]
          raw_html := raw_html_of b
          message_count := message_count_of n }, tr)

/-- Lines 77-111: content extraction.  The clipboard is cleared, the copy
button clicked, the clipboard read; an empty clipboard triggers the DOM
fallback script, whose `null` result becomes Python `None`. -/
def extractionPhase (b : BrowserBehaviour) (headless : Bool) (timeout : Int)
    (settle : Bool) : Except PyExc ChatLangchainResponse × RunTrace :=
  match b.clipboardClear with
  | Except.error e => (Except.error e, ⟨false, settle, true⟩)
  | Except.ok _ =>
  match b.copyButtonClick with
  | Except.error e => (Except.error e, ⟨false, settle, true⟩)
  | Except.ok _ =>
  match b.clipboardRead with
  | Except.error e => (Except.error e, ⟨false, settle, true⟩)
  | Except.ok s =>
    if s = "" then
      match b.fallbackDom with
      | Except.error e => (Except.error e, ⟨true, settle, true⟩)
      | Except.ok dom => assemble b headless timeout settle true (fallbackEval dom)
    else
      assemble b headless timeout settle false (some s)

/-- Lines 39-136: the body of the outer `try`.  Steps run in source order;
the first raising step aborts the body with its exception, except for the
network-quiescence wait, whose `PlaywrightTimeoutError` is absorbed by the
inner handler (line 72) in favour of a fixed settle delay. -/
def tryBody (b : BrowserBehaviour) (headless : Bool) (timeout : Int) :
    Except PyExc ChatLangchainResponse × RunTrace :=
  match b.launch with
  | Except.error e => (Except.error e, ⟨false, false, false⟩)
  | Except.ok _ =>
  match b.newContext with
  | Except.error e => (Except.error e, ⟨false, false, false⟩)
  | Except.ok _ =>
  match b.newPage with
  | Except.error e => (Except.error e, ⟨false, false, false⟩)
  | Except.ok _ =>
  match b.goto with
  | Except.error e => (Except.error e, ⟨false, false, false⟩)
  | Except.ok _ =>
  match b.textboxClick with
  | Except.error e => (Except.error e, ⟨false, false, false⟩)
  | Except.ok _ =>
  match b.textboxFill with
  | Except.error e => (Except.error e, ⟨false, false, false⟩)
  | Except.ok _ =>
  match b.textboxPress with
  | Except.error e => (Except.error e, ⟨false, false, false⟩)
  | Except.ok _ =>
  match b.copyButtonWait with
  | Except.error e => (Except.error e, ⟨false, false, false⟩)
  | Except.ok _ =>
  match b.networkIdleWait with
  | Except.error e =>
    if e.isPwTimeout then extractionPhase b headless timeout true
    else (Except.error e, ⟨false, false, false⟩)
  | Except.ok _ => extractionPhase b headless timeout false

/-- `scrape_chat_langchain(prompt, headless, timeout)` under behaviour `b`:
the outer `except Exception` handler (lines 138-142) converts any exception
from the body into a failure-shaped response; the `finally` block
(lines 143-145) then closes the browser when `launch` succeeded, and an
exception raised by that `close` propagates to the caller, replacing the
response.  `prompt` is consumed by `textbox.fill` and has no further
observable effect in the model. -/
def scrape_chat_langchain (prompt : String) (headless : Bool := true)
    (timeout : Int := 30000) (b : BrowserBehaviour) : RunOutcome :=
  let rt := tryBody b headless timeout
  let handled : ChatLangchainResponse :=
    match rt.1 with
    | Except.ok resp => resp
    | Except.error e => errorResponse e
  match b.launch with
  | Except.error _ => { result := Except.ok handled, trace := rt.2 }
  | Except.ok _ =>
    match b.browserClose with
    | Except.ok _ => { result := Except.ok handled, trace := rt.2 }
    | Except.error ce => { result := Except.error ce, trace := rt.2 }

/-- A behaviour in which every browser call succeeds: the nominal happy
path (clipboard populated by the copy button, two message-like elements
rendered). -/
def okBehaviour : BrowserBehaviour :=
  { launch := Except.ok ()
    newContext := Except.ok ()
    newPage := Except.ok ()
    goto := Except.ok ()
    textboxClick := Except.ok ()
    textboxFill := Except.ok ()
    textboxPress := Except.ok ()
    copyButtonWait := Except.ok ()
    networkIdleWait := Except.ok ()
    clipboardClear := Except.ok ()
    copyButtonClick := Except.ok ()
    clipboardRead := Except.ok "LangChain is a framework for building LLM applications."
    fallbackDom := Except.ok
      { copyButtonFound := true
        closestContainer := some
          { innerText := "LangChain is a framework for building LLM applications.Copy"
            textContent := "" }
        grandparent := none }
    rawQuery := Except.ok 2
    lastInnerHtml := Except.ok "<p>LangChain is a framework for building LLM applications.</p>"
    msgQuery := Except.ok 2
    pageUrl := "https://chat.langchain.com"
    browserClose := Except.ok () }

/-- The response of an invocation whose result was `Except.ok`, with a
dummy failure response as the (never relevant) default. -/
def respAt (o : RunOutcome) : ChatLangchainResponse :=
  match o.result with
  | Except.ok r => r
  | Except.error _ => errorResponse { typeName := "", message := "", isPwTimeout := false }

/-- The `text` field of the returned response, or `none` when an exception
propagated to the caller. -/
def resultText (o : RunOutcome) : Option String :=
  match o.result with
  | Except.ok r => some r.text
  | Except.error _ => none

/-- The returned response, or `none` when an exception propagated. -/
def resultResp (o : RunOutcome) : Option ChatLangchainResponse :=
  match o.result with
  | Except.ok r => some r
  | Except.error _ => none

/-- Key membership in a metadata dict. -/
def hasKey (m : List (String × MetaVal)) (k : String) : Bool :=
  m.any (fun q => q.1 == k)

/-- All of prompt submission (lines 41-57) succeeded. -/
def submissionOk (b : BrowserBehaviour) : Prop :=
  b.launch = Except.ok () ∧ b.newContext = Except.ok () ∧
  b.newPage = Except.ok () ∧ b.goto = Except.ok () ∧
  b.textboxClick = Except.ok () ∧ b.textboxFill = Except.ok () ∧
  b.textboxPress = Except.ok ()

/-- Completion detection succeeded: the copy affordance became visible and
the network-quiescence wait either succeeded or timed out with Playwright's
`TimeoutError` (the absorbed, non-fatal case). -/
def detectionOk (b : BrowserBehaviour) : Prop :=
  submissionOk b ∧ b.copyButtonWait = Except.ok () ∧
  (b.networkIdleWait = Except.ok () ∨
    ∃ e, b.networkIdleWait = Except.error e ∧ e.isPwTimeout = true)

/-- Control reaches the clipboard read: detection succeeded and the
clipboard clear and copy click did not raise. -/
def extractionReady (b : BrowserBehaviour) : Prop :=
  detectionOk b ∧ b.clipboardClear = Except.ok () ∧
  b.copyButtonClick = Except.ok ()

/-- A generic runtime exception. -/
def boomExc : PyExc := { typeName := "Error", message := "boom", isPwTimeout := false }

/-- An exception raised by `browser.close()` in the `finally` block. -/
def closeExc : PyExc :=
  { typeName := "TargetClosedError", message := "browser has been closed", isPwTimeout := false }

/-- Playwright locator / load-state timeout. -/
def locatorTimeoutExc : PyExc :=
  { typeName := "TimeoutError", message := "Timeout 30000ms exceeded.", isPwTimeout := true }

/-- A clipboard permission failure raised by the `writeText` evaluate. -/
def clipWriteExc : PyExc :=
  { typeName := "Error", message := "clipboard write denied", isPwTimeout := false }

/-- A clipboard permission failure raised by the `readText` evaluate. -/
def clipReadExc : PyExc :=
  { typeName := "Error", message := "clipboard read denied", isPwTimeout := false }

/-- The answer container on the happy path: its visible text carries a
residual `Copy` control label from the ancestor capture. -/
def okNode : DomNode :=
  { innerText := "LangChain is a framework for building LLM applications.Copy"
    textContent := "" }

/-- Happy-path fallback DOM: copy button present, matching ancestor found. -/
def okDom : FallbackDom :=
  { copyButtonFound := true, closestContainer := some okNode, grandparent := none }

/-- A container whose text ends with a stray `Copy` token. -/
def langGraphNode : DomNode :=
  { innerText := " LangGraph is a library for building stateful agents. Copy "
    textContent := "" }

/-- Fallback DOM locating `langGraphNode`. -/
def langGraphDom : FallbackDom :=
  { copyButtonFound := true, closestContainer := some langGraphNode, grandparent := none }

/-- A container whose body text itself contains the word `Copy` twice. -/
def copyBodyNode : DomNode :=
  { innerText := " Keep this Copy inside the Copy body ", textContent := "" }

/-- Fallback DOM locating `copyBodyNode`. -/
def copyBodyDom : FallbackDom :=
  { copyButtonFound := true, closestContainer := some copyBodyNode, grandparent := none }

/-- Fallback DOM in which no `Copy` button is found (script returns null). -/
def noButtonDom : FallbackDom :=
  { copyButtonFound := false, closestContainer := none, grandparent := none }

/-- The default-on-zero message count is always at least one. -/
theorem message_count_of_pos (n : Nat) : 1 ≤ message_count_of n := by
  unfold message_count_of
  split <;> omega

/-- The failure-shaped response always carries a non-empty text. -/
theorem errorResponse_text_ne (e : PyExc) : (errorResponse e).text ≠ "" := by
  intro h
  have h2 := congrArg String.data h
  rw [errorResponse] at h2
  rw [String.data_append] at h2
  have h3 : ("Error scraping chat.langchain.com: ").data = [] ∧ e.message.data = [] :=
    List.append_eq_nil.mp h2
  exact absurd h3.1 (by decide)

/-- Characterization of a successful `assemble`: the extracted text was a
string, the message-count query succeeded, and the response carries the
trimmed text and the defaulted count. -/
theorem assemble_ok_cases (b : BrowserBehaviour) (hl : Bool) (t : Int)
    (settle fb : Bool) (rt : Option String) (resp : ChatLangchainResponse)
    (hok : (assemble b hl t settle fb rt).1 = Except.ok resp) :
    ∃ u n, rt = some u ∧ b.msgQuery = Except.ok n ∧
      resp.text = strTrim u ∧ resp.message_count = message_count_of n := by
  unfold assemble at hok
  rcases hm : b.msgQuery with e | n
  · simp [hm] at hok
  · simp only [hm] at hok
    rcases rt with _ | u
    · simp at hok
    · simp only [] at hok
      rw [Except.ok.injEq] at hok
      subst hok
      exact ⟨u, n, rfl, rfl, rfl, rfl⟩

/-- Characterization of a successful extraction phase: the clipboard read
succeeded, and either it was non-empty and became the text, or the DOM
fallback supplied the text. -/
theorem extractionPhase_ok_cases (b : BrowserBehaviour) (hl : Bool) (t : Int)
    (settle : Bool) (resp : ChatLangchainResponse)
    (hok : (extractionPhase b hl t settle).1 = Except.ok resp) :
    ∃ s n, b.clipboardRead = Except.ok s ∧ b.msgQuery = Except.ok n ∧
      resp.message_count = message_count_of n ∧
      ((s ≠ "" ∧ resp.text = strTrim s) ∨
       (s = "" ∧ ∃ dom u, b.fallbackDom = Except.ok dom ∧
          fallbackEval dom = some u ∧ resp.text = strTrim u)) := by
  unfold extractionPhase at hok
  rcases h1 : b.clipboardClear with e | _
  · simp [h1] at hok
  simp only [h1] at hok
  rcases h2 : b.copyButtonClick with e | _
  · simp [h2] at hok
  simp only [h2] at hok
  rcases h3 : b.clipboardRead with e | s
  · simp [h3] at hok
  simp only [h3] at hok
  by_cases hs : s = ""
  · rw [if_pos hs] at hok
    rcases h4 : b.fallbackDom with e | dom
    · simp [h4] at hok
    · simp only [h4] at hok
      obtain ⟨u, n, hrt, hm, ht, hmc⟩ := assemble_ok_cases b hl t settle true _ resp hok
      exact ⟨s, n, rfl, hm, hmc, Or.inr ⟨hs, dom, u, rfl, hrt, ht⟩⟩
  · rw [if_neg hs] at hok
    obtain ⟨u, n, hrt, hm, ht, hmc⟩ := assemble_ok_cases b hl t settle false _ resp hok
    obtain rfl : s = u := Option.some.inj hrt
    exact ⟨s, n, rfl, hm, hmc, Or.inl ⟨hs, ht⟩⟩

/-- Characterization of a successful `try` body. -/
theorem tryBody_ok_cases (b : BrowserBehaviour) (hl : Bool) (t : Int)
    (resp : ChatLangchainResponse)
    (hok : (tryBody b hl t).1 = Except.ok resp) :
    ∃ s n, b.clipboardRead = Except.ok s ∧ b.msgQuery = Except.ok n ∧
      resp.message_count = message_count_of n ∧
      ((s ≠ "" ∧ resp.text = strTrim s) ∨
       (s = "" ∧ ∃ dom u, b.fallbackDom = Except.ok dom ∧
          fallbackEval dom = some u ∧ resp.text = strTrim u)) := by
  unfold tryBody at hok
  rcases h1 : b.launch with e | _
  · simp [h1] at hok
  simp only [h1] at hok
  rcases h2 : b.newContext with e | _
  · simp [h2] at hok
  simp only [h2] at hok
  rcases h3 : b.newPage with e | _
  · simp [h3] at hok
  simp only [h3] at hok
  rcases h4 : b.goto with e | _
  · simp [h4] at hok
  simp only [h4] at hok
  rcases h5 : b.textboxClick with e | _
  · simp [h5] at hok
  simp only [h5] at hok
  rcases h6 : b.textboxFill with e | _
  · simp [h6] at hok
  simp only [h6] at hok
  rcases h7 : b.textboxPress with e | _
  · simp [h7] at hok
  simp only [h7] at hok
  rcases h8 : b.copyButtonWait with e | _
  · simp [h8] at hok
  simp only [h8] at hok
  rcases h9 : b.networkIdleWait with e | _
  · simp only [h9] at hok
    by_cases hpw : e.isPwTimeout
    · rw [if_pos hpw] at hok
      exact extractionPhase_ok_cases b hl t true resp hok
    · rw [if_neg hpw] at hok
      simp at hok
  · simp only [h9] at hok
    exact extractionPhase_ok_cases b hl t false resp hok

/-- Characterization of every response the public operation can return:
it is either the failure-shaped response for some exception, or a
success-shaped response fed by the clipboard or the DOM fallback. -/
theorem scrape_ok_cases (p : String) (hl : Bool) (t : Int)
    (b : BrowserBehaviour) (resp : ChatLangchainResponse)
    (hok : (scrape_chat_langchain p hl t b).result = Except.ok resp) :
    (∃ e, resp = errorResponse e) ∨
    (∃ s n, b.clipboardRead = Except.ok s ∧ b.msgQuery = Except.ok n ∧
      resp.message_count = message_count_of n ∧
      ((s ≠ "" ∧ resp.text = strTrim s) ∨
       (s = "" ∧ ∃ dom u, b.fallbackDom = Except.ok dom ∧
          fallbackEval dom = some u ∧ resp.text = strTrim u))) := by
  unfold scrape_chat_langchain at hok
  rcases hL : b.launch with e | _
  · simp only [hL] at hok
    rw [Except.ok.injEq] at hok
    rcases htb : (tryBody b hl t).1 with e2 | r
    · rw [htb] at hok
      exact Or.inl ⟨e2, hok.symm⟩
    · rw [htb] at hok
      subst hok
      exact Or.inr (tryBody_ok_cases b hl t r htb)
  · simp only [hL] at hok
    rcases hC : b.browserClose with ce | _
    · simp [hC] at hok
    · simp only [hC] at hok
      rw [Except.ok.injEq] at hok
      rcases htb : (tryBody b hl t).1 with e2 | r
      · rw [htb] at hok
        exact Or.inl ⟨e2, hok.symm⟩
      · rw [htb] at hok
        subst hok
        exact Or.inr (tryBody_ok_cases b hl t r htb)

/-- The trace produced by `assemble` in every branch. -/
theorem assemble_trace (b : BrowserBehaviour) (hl : Bool) (t : Int)
    (settle fb : Bool) (rt : Option String) :
    (assemble b hl t settle fb rt).2 = ⟨fb, settle, true⟩ := by
  unfold assemble
  rcases b.msgQuery with e | n
  · rfl
  · rcases rt with _ | u <;> rfl

/-- Whatever the clipboard and DOM do, the extraction phase records the
settle-delay flag it was entered with and that extraction was reached. -/
theorem extractionPhase_trace (b : BrowserBehaviour) (hl : Bool) (t : Int)
    (settle : Bool) :
    (extractionPhase b hl t settle).2.settleDelayFallback = settle ∧
    (extractionPhase b hl t settle).2.reachedExtraction = true := by
  unfold extractionPhase
  split
  · exact ⟨rfl, rfl⟩
  split
  · exact ⟨rfl, rfl⟩
  split
  · exact ⟨rfl, rfl⟩
  split
  · split
    · exact ⟨rfl, rfl⟩
    · rw [assemble_trace]
      exact ⟨rfl, rfl⟩
  · rw [assemble_trace]
    exact ⟨rfl, rfl⟩

/-- Behaviour for the C1 counterexample: everything succeeds except the
final `browser.close()` in the `finally` block. -/
def bCloseFail : BrowserBehaviour :=
  { okBehaviour with browserClose := Except.error closeExc }

/-- C1 (counterexample): with every scraping sub-step succeeding but
`browser.close()` raising in the `finally` block, the exception propagates
to the caller of `scrape_chat_langchain` — the claim that no behaviour of
the browser collaborator makes the public operation raise is false. -/
theorem scrape_close_failure_escapes :
    (scrape_chat_langchain "What is LangChain?" true 30000 bCloseFail).result =
      Except.error closeExc := rfl

/-- C1 (amended): whenever the terminal `browser.close()` cleanup does not
raise — or the launch itself failed, so that no close is attempted — the
operation returns a well-formed `ChatLangchainResponse` and propagates no
exception; a raising close after a successful launch is the only escape. -/
theorem scrape_no_escape_when_close_ok (p : String) (hl : Bool) (t : Int)
    (b : BrowserBehaviour)
    (hc : b.browserClose = Except.ok () ∨ ∃ e, b.launch = Except.error e) :
    (scrape_chat_langchain p hl t b).result =
      Except.ok (respAt (scrape_chat_langchain p hl t b)) := by
  rcases hc with hc | ⟨e, he⟩
  · rcases hL : b.launch with e | _
    · simp [scrape_chat_langchain, respAt, hL]
    · simp [scrape_chat_langchain, respAt, hL, hc]
  · simp [scrape_chat_langchain, respAt, he]

/-- Witness for the amended C1 at the nominal happy-path behaviour. -/
theorem scrape_no_escape_when_close_ok_witness :
    (scrape_chat_langchain "What is LangChain?" true 30000 okBehaviour).result =
      Except.ok (respAt (scrape_chat_langchain "What is LangChain?" true 30000 okBehaviour)) :=
  scrape_no_escape_when_close_ok "What is LangChain?" true 30000 okBehaviour (Or.inl rfl)

/-- Behaviour for the C2 counterexample: the clipboard yields only
whitespace. -/
def bBlankClipboard : BrowserBehaviour :=
  { okBehaviour with clipboardRead := Except.ok "   " }

/-- C2 (counterexample): a whitespace-only clipboard string is truthy in
Python, so the fallback is skipped and `text` becomes the empty string —
the claim that `text` is always non-empty is false. -/
theorem scrape_text_empty_on_blank_clipboard :
    bBlankClipboard.clipboardRead = Except.ok "   " ∧
    resultText (scrape_chat_langchain "What is LangChain?" true 30000 bBlankClipboard) =
      some "" ∧
    (scrape_chat_langchain "What is LangChain?" true 30000 bBlankClipboard).trace.fallbackInvoked
      = false :=
  ⟨rfl, by decide, by decide⟩

/-- C2 (amended): a returned response can carry an empty `text` only when
the clipboard read itself succeeded with content that trims to the empty
string (in particular the empty string that routes to the fallback);
failure-shaped responses always have non-empty text. -/
theorem scrape_text_empty_only_on_blank_content (p : String) (hl : Bool) (t : Int)
    (b : BrowserBehaviour) (resp : ChatLangchainResponse)
    (hok : (scrape_chat_langchain p hl t b).result = Except.ok resp)
    (he : resp.text = "") :
    ∃ s, b.clipboardRead = Except.ok s ∧ strTrim s = "" := by
  rcases scrape_ok_cases p hl t b resp hok with ⟨e, rfl⟩ | ⟨s, n, hr, hm, hmc, hcases⟩
  · exact absurd he (errorResponse_text_ne e)
  · rcases hcases with ⟨hs, ht⟩ | ⟨rfl, dom, u, hd, hu, ht⟩
    · exact ⟨s, hr, ht.symm.trans he⟩
    · exact ⟨"", hr, rfl⟩

/-- Witness for the amended C2 at the whitespace-clipboard behaviour. -/
theorem scrape_text_empty_only_on_blank_content_witness :
    ∃ s, bBlankClipboard.clipboardRead = Except.ok s ∧ strTrim s = "" :=
  scrape_text_empty_only_on_blank_content "What is LangChain?" true 30000 bBlankClipboard
    (respAt (scrape_chat_langchain "What is LangChain?" true 30000 bBlankClipboard))
    rfl (by decide)

/-- Behaviour for the C3 counterexample: the clipboard yields non-empty
text, but the unprotected message-count query raises afterwards. -/
def bCountFailClip : BrowserBehaviour :=
  { okBehaviour with
    clipboardRead := Except.ok "hello"
    msgQuery := Except.error boomExc }

/-- C3 (counterexample): the clipboard read returned the non-empty string
`hello`, yet the returned `text` is the error string, not the trimmed
clipboard content — the message-count query at line 123 runs outside any
local handler, so its exception reaches the outer handler and discards the
already-extracted clipboard text. -/
theorem scrape_clipboard_text_lost_on_count_failure :
    bCountFailClip.clipboardRead = Except.ok "hello" ∧
    resultText (scrape_chat_langchain "What is LangChain?" true 30000 bCountFailClip) =
      some "Error scraping chat.langchain.com: boom" ∧
    resultText (scrape_chat_langchain "What is LangChain?" true 30000 bCountFailClip) ≠
      some (strTrim "hello") :=
  ⟨rfl, by decide, by decide⟩

/-- C3 (amended): whenever control reaches the clipboard read and it
returns a non-empty string, the DOM fallback channel is not invoked; and
provided the subsequent message-count query and the final close also
succeed, the returned `text` is exactly that string trimmed. -/
theorem scrape_clipboard_primary_channel (p : String) (hl : Bool) (t : Int)
    (b : BrowserBehaviour) (s : String) (n : Nat)
    (hx : extractionReady b) (hr : b.clipboardRead = Except.ok s) (hs : s ≠ "")
    (hm : b.msgQuery = Except.ok n) (hc : b.browserClose = Except.ok ()) :
    (scrape_chat_langchain p hl t b).trace.fallbackInvoked = false ∧
    resultText (scrape_chat_langchain p hl t b) = some (strTrim s) := by
  obtain ⟨⟨⟨h1, h2, h3, h4, h5, h6, h7⟩, h8, h9⟩, h10, h11⟩ := hx
  rcases h9 with h9 | ⟨te, h9, hpw⟩ <;>
    simp [scrape_chat_langchain, tryBody, extractionPhase, assemble, resultText,
      h1, h2, h3, h4, h5, h6, h7, h8, h9, h10, h11, hr, hs, hm, hc, *]

/-- Behaviour for the C3 witness: clipboard content with surrounding
whitespace. -/
def bWsClipboard : BrowserBehaviour :=
  { okBehaviour with clipboardRead := Except.ok " hi " }

/-- Witness for the amended C3. -/
theorem scrape_clipboard_primary_channel_witness :
    (scrape_chat_langchain "What is LangChain?" true 30000 bWsClipboard).trace.fallbackInvoked
      = false ∧
    resultText (scrape_chat_langchain "What is LangChain?" true 30000 bWsClipboard) =
      some (strTrim " hi ") :=
  scrape_clipboard_primary_channel "What is LangChain?" true 30000 bWsClipboard " hi " 2
    ⟨⟨⟨rfl, rfl, rfl, rfl, rfl, rfl, rfl⟩, rfl, Or.inl rfl⟩, rfl, rfl⟩
    rfl (by decide) rfl rfl

/-- Behaviour for the C4 counterexample: empty clipboard, fallback locates
a container, but the message-count query raises afterwards. -/
def bCountFailFb : BrowserBehaviour :=
  { okBehaviour with
    clipboardRead := Except.ok ""
    fallbackDom := Except.ok langGraphDom
    msgQuery := Except.error boomExc }

/-- C4 (counterexample): the clipboard read returned empty content and the
fallback channel ran and produced cleaned text, yet that output does not
become the returned `text`: the later unprotected message-count query
raises and the outer handler substitutes the error string. -/
theorem scrape_fallback_text_lost_on_count_failure :
    bCountFailFb.clipboardRead = Except.ok "" ∧
    fallbackEval langGraphDom = some "LangGraph is a library for building stateful agents." ∧
    (scrape_chat_langchain "What is LangGraph?" true 30000 bCountFailFb).trace.fallbackInvoked
      = true ∧
    resultText (scrape_chat_langchain "What is LangGraph?" true 30000 bCountFailFb) ≠
      some "LangGraph is a library for building stateful agents." :=
  ⟨rfl, by decide, by decide, by decide⟩

/-- C4 (amended): whenever the clipboard read returns empty content the
DOM structural fallback channel runs; and provided it locates a container
(returning cleaned text rather than null) and the subsequent message-count
query and close succeed, that output — trimmed once more by the final
`strip()` — becomes the returned `text`. -/
theorem scrape_fallback_channel (p : String) (hl : Bool) (t : Int)
    (b : BrowserBehaviour) (dom : FallbackDom) (u : String) (n : Nat)
    (hx : extractionReady b) (hr : b.clipboardRead = Except.ok "")
    (hd : b.fallbackDom = Except.ok dom) (hu : fallbackEval dom = some u)
    (hm : b.msgQuery = Except.ok n) (hc : b.browserClose = Except.ok ()) :
    (scrape_chat_langchain p hl t b).trace.fallbackInvoked = true ∧
    resultText (scrape_chat_langchain p hl t b) = some (strTrim u) := by
  obtain ⟨⟨⟨h1, h2, h3, h4, h5, h6, h7⟩, h8, h9⟩, h10, h11⟩ := hx
  rcases h9 with h9 | ⟨te, h9, hpw⟩ <;>
    simp [scrape_chat_langchain, tryBody, extractionPhase, assemble, resultText,
      h1, h2, h3, h4, h5, h6, h7, h8, h9, h10, h11, hr, hd, hu, hm, hc, *]

/-- Behaviour for the C4 witness: empty clipboard and a fallback container
carrying a stray `Copy` token. -/
def bFbLangGraph : BrowserBehaviour :=
  { okBehaviour with
    clipboardRead := Except.ok ""
    fallbackDom := Except.ok langGraphDom }

/-- Witness for the amended C4. -/
theorem scrape_fallback_channel_witness :
    (scrape_chat_langchain "What is LangGraph?" true 30000 bFbLangGraph).trace.fallbackInvoked
      = true ∧
    resultText (scrape_chat_langchain "What is LangGraph?" true 30000 bFbLangGraph) =
      some (strTrim "LangGraph is a library for building stateful agents.") :=
  scrape_fallback_channel "What is LangGraph?" true 30000 bFbLangGraph langGraphDom
    "LangGraph is a library for building stateful agents." 2
    ⟨⟨⟨rfl, rfl, rfl, rfl, rfl, rfl, rfl⟩, rfl, Or.inl rfl⟩, rfl, rfl⟩
    rfl rfl (by decide) rfl rfl

/-- Behaviour for the C5 counterexample: the clipboard-clearing
`writeText` evaluate raises (e.g. permission denied) while the fallback
DOM in fact holds extractable content. -/
def bClipWriteFail : BrowserBehaviour :=
  { okBehaviour with clipboardClear := Except.error clipWriteExc }

/-- C5 (counterexample): a raising clipboard write is caught only by the
outer handler — the invocation hard-fails without ever invoking the
fallback channel, even though the fallback DOM held extractable content.
The claim that a clipboard read/write failure triggers the fallback is
false. -/
theorem scrape_clipboard_error_skips_fallback :
    bClipWriteFail.clipboardClear = Except.error clipWriteExc ∧
    fallbackEval okDom = some "LangChain is a framework for building LLM applications." ∧
    (scrape_chat_langchain "What is LangChain?" true 30000 bClipWriteFail).trace.fallbackInvoked
      = false ∧
    resultText (scrape_chat_langchain "What is LangChain?" true 30000 bClipWriteFail) =
      some "Error scraping chat.langchain.com: clipboard write denied" :=
  ⟨rfl, by decide, by decide, by decide⟩

/-- C5 (amended): only an empty-but-successful clipboard read routes to
the fallback channel.  A raising clipboard write or read is a hard failure
handled at the outer boundary with the fallback never invoked; and when
the fallback does run but locates no container (null output), the
invocation hard-fails with the attribute error raised by stripping
`None`. -/
theorem scrape_clipboard_error_hard_failure (p : String) (hl : Bool) (t : Int)
    (b : BrowserBehaviour) (e : PyExc) (dom : FallbackDom) (n : Nat)
    (hd : detectionOk b) (hc : b.browserClose = Except.ok ()) :
    (b.clipboardClear = Except.error e →
      (scrape_chat_langchain p hl t b).trace.fallbackInvoked = false ∧
      resultText (scrape_chat_langchain p hl t b) =
        some ("Error scraping chat.langchain.com: " ++ e.message)) ∧
    (b.clipboardClear = Except.ok () → b.copyButtonClick = Except.ok () →
      b.clipboardRead = Except.error e →
      (scrape_chat_langchain p hl t b).trace.fallbackInvoked = false ∧
      resultText (scrape_chat_langchain p hl t b) =
        some ("Error scraping chat.langchain.com: " ++ e.message)) ∧
    (b.clipboardClear = Except.ok () → b.copyButtonClick = Except.ok () →
      b.clipboardRead = Except.ok "" → b.fallbackDom = Except.ok dom →
      fallbackEval dom = none → b.msgQuery = Except.ok n →
      (scrape_chat_langchain p hl t b).trace.fallbackInvoked = true ∧
      resultText (scrape_chat_langchain p hl t b) =
        some ("Error scraping chat.langchain.com: " ++ attributeErrorNone.message)) := by
  obtain ⟨⟨h1, h2, h3, h4, h5, h6, h7⟩, h8, h9⟩ := hd
  refine ⟨fun hclear => ?_, fun hclear hclick hread => ?_,
    fun hclear hclick hread hfd hfe hm => ?_⟩ <;>
  rcases h9 with h9 | ⟨te, h9, hpw⟩ <;>
    simp [scrape_chat_langchain, tryBody, extractionPhase, assemble, resultText,
      errorResponse, h1, h2, h3, h4, h5, h6, h7, h8, h9, hc, *]

/-- Witness for the amended C5 at the raising-clipboard-write behaviour. -/
theorem scrape_clipboard_error_hard_failure_witness :
    (scrape_chat_langchain "What is LangChain?" true 30000 bClipWriteFail).trace.fallbackInvoked
      = false ∧
    resultText (scrape_chat_langchain "What is LangChain?" true 30000 bClipWriteFail) =
      some ("Error scraping chat.langchain.com: " ++ clipWriteExc.message) :=
  (scrape_clipboard_error_hard_failure "What is LangChain?" true 30000 bClipWriteFail
    clipWriteExc okDom 2
    ⟨⟨rfl, rfl, rfl, rfl, rfl, rfl, rfl⟩, rfl, Or.inl rfl⟩ rfl).1 rfl

/-- Behaviour for the C6 counterexample: everything succeeds except the
message-count query. -/
def bCountFail : BrowserBehaviour :=
  { okBehaviour with msgQuery := Except.error boomExc }

/-- C6 (counterexample): a failure of the message-count query is fatal —
the query at line 123 runs outside any local handler, so the invocation
aborts into the failure-shaped result even though the text had been
extracted and the raw-markup capture succeeded. -/
theorem scrape_count_failure_fatal :
    bCountFail.rawQuery = Except.ok 2 ∧
    bCountFail.msgQuery = Except.error boomExc ∧
    resultText (scrape_chat_langchain "What is LangChain?" true 30000 bCountFail) =
      some "Error scraping chat.langchain.com: boom" :=
  ⟨rfl, rfl, by decide⟩

/-- C6 (amended): the raw-markup half of the claim holds — a raising
element query or `inner_html` call only degrades `raw_html` to `None` and
the extraction still succeeds — but a raising message-count query aborts
the extraction and produces a failure-shaped result. -/
theorem scrape_raw_markup_nonfatal_count_fatal (p : String) (hl : Bool) (t : Int)
    (b : BrowserBehaviour) (s : String) (n k : Nat) (e eh e2 : PyExc)
    (hx : extractionReady b) (hr : b.clipboardRead = Except.ok s) (hs : s ≠ "")
    (hc : b.browserClose = Except.ok ()) :
    (b.rawQuery = Except.error e → b.msgQuery = Except.ok n →
      resultText (scrape_chat_langchain p hl t b) = some (strTrim s) ∧
      (resultResp (scrape_chat_langchain p hl t b)).map ChatLangchainResponse.raw_html =
        some none) ∧
    (b.rawQuery = Except.ok k → k ≠ 0 → b.lastInnerHtml = Except.error eh →
      b.msgQuery = Except.ok n →
      resultText (scrape_chat_langchain p hl t b) = some (strTrim s) ∧
      (resultResp (scrape_chat_langchain p hl t b)).map ChatLangchainResponse.raw_html =
        some none) ∧
    (b.msgQuery = Except.error e2 →
      resultText (scrape_chat_langchain p hl t b) =
        some ("Error scraping chat.langchain.com: " ++ e2.message)) := by
  obtain ⟨⟨⟨h1, h2, h3, h4, h5, h6, h7⟩, h8, h9⟩, h10, h11⟩ := hx
  refine ⟨fun hrq hm => ?_, fun hrq hk hih hm => ?_, fun hm => ?_⟩ <;>
  rcases h9 with h9 | ⟨te, h9, hpw⟩ <;>
    simp [scrape_chat_langchain, tryBody, extractionPhase, assemble, resultText,
      resultResp, raw_html_of, errorResponse,
      h1, h2, h3, h4, h5, h6, h7, h8, h9, h10, h11, hr, hs, hc, *]

/-- Behaviour for the C6 witness: the raw-markup query raises, everything
else succeeds. -/
def bRawFail : BrowserBehaviour :=
  { okBehaviour with rawQuery := Except.error boomExc }

/-- Witness for the amended C6. -/
theorem scrape_raw_markup_nonfatal_count_fatal_witness :
    resultText (scrape_chat_langchain "What is LangChain?" true 30000 bRawFail) =
      some (strTrim "LangChain is a framework for building LLM applications.") ∧
    (resultResp (scrape_chat_langchain "What is LangChain?" true 30000 bRawFail)).map
      ChatLangchainResponse.raw_html = some none :=
  (scrape_raw_markup_nonfatal_count_fatal "What is LangChain?" true 30000 bRawFail
    "LangChain is a framework for building LLM applications." 2 2 boomExc boomExc boomExc
    ⟨⟨⟨rfl, rfl, rfl, rfl, rfl, rfl, rfl⟩, rfl, Or.inl rfl⟩, rfl, rfl⟩
    rfl (by decide) rfl).1 rfl rfl

/-- C7 (confirmed): every response the operation returns carries
`message_count ≥ 1` — the failure shape uses the pydantic default `1`, the
success shape uses the queried count with zero replaced by `1`; and under
a zero-element query result the count is exactly `1`. -/
theorem scrape_message_count_ge_one :
    (∀ (p : String) (hl : Bool) (t : Int) (b : BrowserBehaviour)
        (resp : ChatLangchainResponse),
      (scrape_chat_langchain p hl t b).result = Except.ok resp →
      1 ≤ resp.message_count) ∧
    (∀ (p : String) (hl : Bool) (t : Int) (b : BrowserBehaviour)
        (resp : ChatLangchainResponse),
      (scrape_chat_langchain p hl t b).result = Except.ok resp →
      b.msgQuery = Except.ok 0 → resp.message_count = 1) := by
  constructor
  · intro p hl t b resp hok
    rcases scrape_ok_cases p hl t b resp hok with ⟨e, rfl⟩ | ⟨s, n, hr, hm, hmc, hrest⟩
    · exact le_refl 1
    · rw [hmc]
      exact message_count_of_pos n
  · intro p hl t b resp hok h0
    rcases scrape_ok_cases p hl t b resp hok with ⟨e, rfl⟩ | ⟨s, n, hr, hm, hmc, hrest⟩
    · rfl
    · obtain rfl : n = 0 := Except.ok.inj (hm.symm.trans h0)
      rw [hmc]
      rfl

/-- Behaviour for the C7 witness: the message query structurally finds
zero elements. -/
def bZeroMsgs : BrowserBehaviour :=
  { okBehaviour with msgQuery := Except.ok 0 }

/-- Witness for C7: with zero message-like elements found, the returned
count is exactly 1 (hence at least 1). -/
theorem scrape_message_count_ge_one_witness :
    1 ≤ (respAt (scrape_chat_langchain "What is LangChain?" true 30000 bZeroMsgs)).message_count ∧
    (respAt (scrape_chat_langchain "What is LangChain?" true 30000 bZeroMsgs)).message_count
      = 1 :=
  ⟨scrape_message_count_ge_one.1 "What is LangChain?" true 30000 bZeroMsgs
     (respAt (scrape_chat_langchain "What is LangChain?" true 30000 bZeroMsgs)) rfl,
   scrape_message_count_ge_one.2 "What is LangChain?" true 30000 bZeroMsgs
     (respAt (scrape_chat_langchain "What is LangChain?" true 30000 bZeroMsgs)) rfl rfl⟩

/-- C8 (confirmed): if submission succeeded but the copy affordance never
became visible within the budget (the `wait_for` raised), the returned
result's `text` begins with the `Error scraping` prefix and its metadata
contains an `error_type` key. -/
theorem scrape_locator_timeout_error_shape (p : String) (hl : Bool) (t : Int)
    (b : BrowserBehaviour) (te : PyExc)
    (hs : submissionOk b) (hw : b.copyButtonWait = Except.error te)
    (hc : b.browserClose = Except.ok ()) :
    resultText (scrape_chat_langchain p hl t b) =
      some ("Error scraping" ++ (" chat.langchain.com: " ++ te.message)) ∧
    (resultResp (scrape_chat_langchain p hl t b)).map
      (fun r => hasKey r.metadata "error_type") = some true := by
  obtain ⟨h1, h2, h3, h4, h5, h6, h7⟩ := hs
  constructor
  · simp [scrape_chat_langchain, tryBody, resultText, errorResponse,
      h1, h2, h3, h4, h5, h6, h7, hw, hc]
    rw [← String.append_assoc]
    rfl
  · simp [scrape_chat_langchain, tryBody, resultResp, errorResponse, hasKey,
      h1, h2, h3, h4, h5, h6, h7, hw, hc]

/-- Behaviour for the C8 witness: the copy affordance never appears. -/
def bLocatorTimeout : BrowserBehaviour :=
  { okBehaviour with copyButtonWait := Except.error locatorTimeoutExc }

/-- Witness for C8. -/
theorem scrape_locator_timeout_error_shape_witness :
    resultText (scrape_chat_langchain "What is LangChain?" true 30000 bLocatorTimeout) =
      some ("Error scraping" ++ (" chat.langchain.com: " ++ locatorTimeoutExc.message)) ∧
    (resultResp (scrape_chat_langchain "What is LangChain?" true 30000 bLocatorTimeout)).map
      (fun r => hasKey r.metadata "error_type") = some true :=
  scrape_locator_timeout_error_shape "What is LangChain?" true 30000 bLocatorTimeout
    locatorTimeoutExc ⟨rfl, rfl, rfl, rfl, rfl, rfl, rfl⟩ rfl rfl

/-- C9 (confirmed): a timeout of the secondary network-quiescence wait is
absorbed — the run records the fixed settle-delay fallback and still
reaches content extraction — while a raising primary copy-affordance wait
is the hard failure path that produces the failure-shaped result. -/
theorem scrape_secondary_timeout_nonfatal :
    (∀ (p : String) (hl : Bool) (t : Int) (b : BrowserBehaviour) (te : PyExc),
      submissionOk b → b.copyButtonWait = Except.ok () →
      b.networkIdleWait = Except.error te → te.isPwTimeout = true →
      (scrape_chat_langchain p hl t b).trace.settleDelayFallback = true ∧
      (scrape_chat_langchain p hl t b).trace.reachedExtraction = true) ∧
    (∀ (p : String) (hl : Bool) (t : Int) (b : BrowserBehaviour) (te : PyExc),
      submissionOk b → b.copyButtonWait = Except.error te →
      b.browserClose = Except.ok () →
      resultText (scrape_chat_langchain p hl t b) =
        some ("Error scraping chat.langchain.com: " ++ te.message)) := by
  constructor
  · intro p hl t b te hs h8 h9 hpw
    obtain ⟨h1, h2, h3, h4, h5, h6, h7⟩ := hs
    have hred : (scrape_chat_langchain p hl t b).trace = (extractionPhase b hl t true).2 := by
      rcases hcl : b.browserClose with ce | _ <;>
        simp [scrape_chat_langchain, tryBody, h1, h2, h3, h4, h5, h6, h7, h8, h9, hpw, hcl]
    rw [hred]
    exact extractionPhase_trace b hl t true
  · intro p hl t b te hs hw hc
    obtain ⟨h1, h2, h3, h4, h5, h6, h7⟩ := hs
    simp [scrape_chat_langchain, tryBody, resultText, errorResponse,
      h1, h2, h3, h4, h5, h6, h7, hw, hc]

/-- Behaviour for the C9 witness: the network-quiescence wait times out,
everything else succeeds. -/
def bIdleTimeout : BrowserBehaviour :=
  { okBehaviour with networkIdleWait := Except.error locatorTimeoutExc }

/-- Witness for C9, using the idle-timeout behaviour for the non-fatal
half and the missing-copy-affordance behaviour for the hard-failure
half. -/
theorem scrape_secondary_timeout_nonfatal_witness :
    ((scrape_chat_langchain "What is LangChain?" true 30000 bIdleTimeout).trace.settleDelayFallback
        = true ∧
      (scrape_chat_langchain "What is LangChain?" true 30000 bIdleTimeout).trace.reachedExtraction
        = true) ∧
    resultText (scrape_chat_langchain "What is LangChain?" true 30000 bLocatorTimeout) =
      some ("Error scraping chat.langchain.com: " ++ locatorTimeoutExc.message) :=
  ⟨scrape_secondary_timeout_nonfatal.1 "What is LangChain?" true 30000 bIdleTimeout
     locatorTimeoutExc ⟨rfl, rfl, rfl, rfl, rfl, rfl, rfl⟩ rfl rfl rfl,
   scrape_secondary_timeout_nonfatal.2 "What is LangChain?" true 30000 bLocatorTimeout
     locatorTimeoutExc ⟨rfl, rfl, rfl, rfl, rfl, rfl, rfl⟩ rfl rfl⟩

/-- C10 (confirmed): in the DOM fallback channel the transformation applied
to the located container's visible text is the global
`replace(/Copy/g, '')` — a left-to-right removal of every `Copy`
occurrence, those inside the answer body included, not only trailing
control labels — followed by trimming (once in the script, once more by
the final Python `strip()`). -/
theorem scrape_fallback_strips_all_copy (p : String) (hl : Bool) (t : Int)
    (b : BrowserBehaviour) (dom : FallbackDom) (c : DomNode) (n : Nat)
    (hx : extractionReady b) (hr : b.clipboardRead = Except.ok "")
    (hd : b.fallbackDom = Except.ok dom) (hb : dom.copyButtonFound = true)
    (hcont : dom.closestContainer = some c)
    (hm : b.msgQuery = Except.ok n) (hc : b.browserClose = Except.ok ()) :
    resultText (scrape_chat_langchain p hl t b) =
      some (strTrim (strTrim (stripCopy (nodeText c)))) := by
  obtain ⟨⟨⟨h1, h2, h3, h4, h5, h6, h7⟩, h8, h9⟩, h10, h11⟩ := hx
  rcases h9 with h9 | ⟨te, h9, hpw⟩ <;>
    simp [scrape_chat_langchain, tryBody, extractionPhase, assemble, resultText,
      fallbackEval, h1, h2, h3, h4, h5, h6, h7, h8, h9, h10, h11, hr, hd, hb,
      hcont, hm, hc, *]

/-- Behaviour for the C10 witness: empty clipboard; the located container's
body text contains `Copy` twice, in the middle of the sentence. -/
def bFbCopyInBody : BrowserBehaviour :=
  { okBehaviour with
    clipboardRead := Except.ok ""
    fallbackDom := Except.ok copyBodyDom }

/-- Witness for C10: both in-body `Copy` occurrences are removed, not just
control-label tokens at the edges. -/
theorem scrape_fallback_strips_all_copy_witness :
    resultText (scrape_chat_langchain "What is LangGraph?" true 30000 bFbCopyInBody) =
      some (strTrim (strTrim (stripCopy (nodeText copyBodyNode)))) ∧
    strTrim (strTrim (stripCopy (nodeText copyBodyNode))) = "Keep this  inside the  body" :=
  ⟨scrape_fallback_strips_all_copy "What is LangGraph?" true 30000 bFbCopyInBody
     copyBodyDom copyBodyNode 2
     ⟨⟨⟨rfl, rfl, rfl, rfl, rfl, rfl, rfl⟩, rfl, Or.inl rfl⟩, rfl, rfl⟩
     rfl rfl rfl rfl rfl rfl,
   by decide⟩
